import Mathlib

/-!
Verification development for the ts-user-code-runner core
(src/UserCodeRunner.ts): shallow embedding of the compile-verify-execute
pipeline with diagnostic relocation, and theorems checking the spec's
claims against it.

The TypeScript compiler and the vm sandbox are external collaborators;
their outputs (diagnostics, type info, evaluation outcomes) are inputs of
the embedded functions.  Everything the repository itself computes
(diagnostic dispatch, relocation, message templating, position math,
stack filtering, context bookkeeping) is translated from the source.
-/

/-- `USER_CODE_FILENAME` from src/UserCodeRunner.ts. -/
def userCodeFilename : String := "__user_file"

/-- `EXECUTION_HARNESS_FILENAME` from src/UserCodeRunner.ts. -/
def executionHarnessFilename : String := "__execution_harness"

/-- Is `pat` an initial segment of `s` (character lists). -/
def leadsWith : List Char → List Char → Bool
  | [], _ => true
  | _ :: _, [] => false
  | p :: ps, c :: cs => p = c && leadsWith ps cs

/-- First-occurrence replacement by the empty string, as in the JS
`String.prototype.replace(pat, "")` call inside `removeExt`.  An empty
pattern leaves the string unchanged (JS inserts the empty replacement). -/
def dropFirstOccurrence : List Char → List Char → List Char
  | [], _ => []
  | c :: rest, pat =>
      if pat ≠ [] ∧ leadsWith pat (c :: rest) then (c :: rest).drop pat.length
      else c :: dropFirstOccurrence rest pat

/-- The part of `p` after its last slash, modelling `path.basename`
(for paths without a trailing slash, the only kind this pipeline builds). -/
def basenameChars (l : List Char) : List Char :=
  l.foldl (fun acc c => if c = '/' then [] else acc ++ [c]) []

/-- Index of the last dot of `b` at a positive index, if any
(the dot starting a dotfile does not count), modelling `path.extname`. -/
def lastDotIndexAux : List Char → Nat → Option Nat → Option Nat
  | [], _, acc => acc
  | c :: rest, i, acc =>
      lastDotIndexAux rest (i + 1) (if c = '.' ∧ 0 < i then some i else acc)

/-- `path.extname` on a basename: substring from its last non-leading dot. -/
def extnameChars (b : List Char) : List Char :=
  match lastDotIndexAux b 0 none with
  | some i => b.drop i
  | none => []

/-- `removeExt` from src/UserCodeRunner.ts:
`path.basename(p).replace(path.extname(p), '')` (first occurrence). -/
def removeExt (p : String) : String :=
  let b := basenameChars p.toList
  ⟨dropFirstOccurrence b (extnameChars b)⟩

/-- Whitespace characters treated as leading trivia. -/
def isWhitespaceChar (c : Char) : Bool :=
  c = ' ' || c = '\t' || c = '\n' || c = '\r'

/-- Models `ts.SourceFile.getStart()`: the position of the first token,
i.e. the text position after the leading trivia (whitespace; the
developments here use no leading comments). -/
def skipLeadingTrivia (text : String) : Nat :=
  (text.toList.takeWhile isWhitespaceChar).length

/-- Walk `pos` characters, tracking 0-based line and column. -/
def lineColAux : List Char → Nat → Nat → Nat → Nat × Nat
  | _, 0, line, col => (line, col)
  | [], _ + 1, line, col => (line, col)
  | c :: cs, n + 1, line, col =>
      if c = '\n' then lineColAux cs n (line + 1) 0 else lineColAux cs n line (col + 1)

/-- Models `ts.SourceFile.getLineAndCharacterOfPosition` (0-based), for
LF line breaks. -/
def lineCharOfPos (text : String) (pos : Nat) : Nat × Nat :=
  lineColAux text.toList pos 0 0

/-- The 1-based `{ line, column }` built from a text position, as in the
`location` getters (`location.line + 1`, `location.character + 1`). -/
def lineCharOfPos1 (text : String) (pos : Nat) : Nat × Nat :=
  ((lineCharOfPos text pos).1 + 1, (lineCharOfPos text pos).2 + 1)

theorem length_takeWhile_le_length {α : Type} (p : α → Bool) (l : List α) :
    (l.takeWhile p).length ≤ l.length := by
  induction l with
  | nil => simp
  | cons a l ih =>
      by_cases h : p a
      · simp [List.takeWhile_cons, h]
        omega
      · simp [List.takeWhile_cons, h]

theorem skipLeadingTrivia_le (text : String) : skipLeadingTrivia text ≤ text.length :=
  length_takeWhile_le_length isWhitespaceChar text.toList

example : removeExt "__execution_harness" = "__execution_harness" := by decide
example : removeExt "other-importable.ts" = "other-importable" := by decide
example : removeExt "globals.d.ts" = "globals.d" := by decide
example : removeExt "some/dir/mod.js" = "mod" := by decide
example : skipLeadingTrivia "\nlet x = 1;" = 1 := by decide
example : lineCharOfPos1 "\nlet x = 1;" 1 = (2, 1) := by decide
example : lineCharOfPos1 "ab\ncd" 4 = (2, 2) := by decide

/-- A text range of a syntax node (`getStart()`/`getEnd()`). -/
structure Span where
  start : Nat
  endPos : Nat
deriving DecidableEq

/-- The parts of a `ts.Diagnostic` the runner reads or rewrites.
`chainCodes` are the codes of the nested `DiagnosticMessageChain`
(collected by `getDiagnosticCodes` together with `code`);
`messageText` is the flattened message. -/
structure DiagnosticModel where
  file : Option String
  start : Option Nat
  length : Option Nat
  code : Nat
  chainCodes : List Nat
  messageText : String
deriving DecidableEq

/-- `getDiagnosticCodes` from src/UserCodeRunner.ts: the diagnostic code
followed by the message-chain codes. -/
def getDiagnosticCodes (d : DiagnosticModel) : List Nat :=
  d.code :: d.chainCodes

/-- A parameter of the default export's call signature: its printed type
(`typeChecker.typeToString(getTypeOfSymbolAtLocation(p, ...))`) and the
span of its `valueDeclaration` in the user unit. -/
structure ParamModel where
  typeString : String
  declSpan : Span
deriving DecidableEq

/-- The first call signature of the default export's type:
its printed return type and its parameters. -/
structure CallSigModel where
  returnTypeString : String
  params : List ParamModel
deriving DecidableEq

/-- Checker facts about the user unit's default export that the relocator
queries: span of the export declaration node, its call signature (if the
export is callable), the span of the exported function's declared
return-type node (if written), and the function's name. -/
structure DefaultExportModel where
  span : Span
  callSig : Option CallSigModel
  returnTypeNodeSpan : Option Span
  functionName : Option String
deriving DecidableEq

/-- The user source unit: its text, and the AST query used by
`UserCodeTypeError.stack` (name of the nearest function-like ancestor of
the node spanning exactly the given range, `undefined` if none). -/
structure UserFileModel where
  text : String
  functionNameAt : Nat → Nat → Option String

/-- Which harness syntax node `getDescendentAtLocation` finds for a
harness diagnostic's range, compared against the classifier's anchors
(`executionHarnessResultNode`, `executionHarnessAsyncResultNode`,
`executionHarnessDefaultFunctionCallNode`,
`executionHarnessDefaultFunctionIdentifierNode`,
`executionHarnessArgumentsNode`); `other` is any other node. -/
inductive AnchorNode where
  | resultNode
  | asyncResultNode
  | defaultFunctionCallNode
  | defaultFunctionIdentifierNode
  | argumentsNode
  | other
deriving DecidableEq

/-- The failures the pipeline raises (never returns): unhandled file-less
diagnostics, an unmatched harness diagnostic node, a missing or
unresolvable module at link time, and a runtime error with no user-unit
stack frame (rethrown with a marker message). -/
inductive PipelineDefect where
  | unhandledDiagnostic (msg : String)
  | unmatchedAnchorNode
  | missingHarnessModule
  | unresolvedDependency (specifier : String)
  | outsideUserCode (msg : String)
deriving DecidableEq

/-- `Math.min(...params.map(p => p.valueDeclaration.getStart()))`
(the runner only evaluates this on a non-empty parameter list). -/
def paramsStart : List ParamModel → Nat
  | [] => 0
  | p :: ps => ps.foldl (fun a q => Nat.min a q.declSpan.start) p.declSpan.start

/-- `Math.max(...params.map(p => p.valueDeclaration.getEnd()))`. -/
def paramsEnd : List ParamModel → Nat
  | [] => 0
  | p :: ps => ps.foldl (fun a q => Nat.max a q.declSpan.endPos) p.declSpan.endPos

/-- The rewriting the `ExecutionHarnessTypeError` constructor performs on
a harness-unit diagnostic (src/UserCodeRunner.ts lines 438-522).
`argText` is `argumentTypeNode.getText()` and `outText` is
`outputTypeNode.getText()` from the synthesized harness; `defaultExport`
are the checker facts about the user unit; `anchor` is the classified
diagnostic node.  The `.error` case models the final
`throw new Error('Unhandled diagnostic node: ...')`. -/
def relocateHarnessDiagnostic (userFile : UserFileModel) (argText outText : String)
    (defaultExport : Option DefaultExportModel) (anchor : AnchorNode)
    (d : DiagnosticModel) : Except PipelineDefect DiagnosticModel :=
  match defaultExport with
  | none =>
      let s := skipLeadingTrivia userFile.text
      .ok { d with
        file := some userCodeFilename
        start := some s
        length := some (userFile.text.length - s)
        messageText := "No default export. Expected a default export function with the signature: \"(...args: " ++ argText ++ ") => " ++ outText ++ "\"." }
  | some de =>
    match de.callSig with
    | none =>
        .ok { d with
          file := some userCodeFilename
          start := some de.span.start
          length := some (de.span.endPos - de.span.start)
          messageText := "Default export is not a valid function. Expected a default export function with the signature: \"(...args: " ++ argText ++ ") => " ++ outText ++ "\"." }
    | some cs =>
      if anchor = .resultNode ∨ anchor = .asyncResultNode then
        let sp : Span :=
          match de.returnTypeNodeSpan with
          | some rs => rs
          | none => de.span
        .ok { d with
          file := some userCodeFilename
          start := some sp.start
          length := some (sp.endPos - sp.start)
          messageText := "Incorrect return type. Expected: '" ++ outText ++ "', Actual: '" ++ cs.returnTypeString ++ "'." }
      else if anchor = .defaultFunctionCallNode ∨ anchor = .defaultFunctionIdentifierNode ∨ anchor = .argumentsNode then
        let actual := "'[" ++ String.intercalate ", " (cs.params.map (·.typeString)) ++ "]'."
        if cs.params.length = 0 then
          .ok { d with
            file := some userCodeFilename
            start := some de.span.start
            length := some (de.span.endPos - de.span.start)
            messageText := "Incorrect argument type. Expected: '" ++ argText ++ "', Actual: " ++ actual }
        else
          .ok { d with
            file := some userCodeFilename
            start := some (paramsStart cs.params)
            length := some (paramsEnd cs.params - paramsStart cs.params)
            messageText := "Incorrect argument type. Expected: '" ++ argText ++ "', Actual: " ++ actual }
      else
        .error .unmatchedAnchorNode

/-- A configured message-mapper table: by diagnostic code, an optional
rewriting of the flattened message (`undefined` result = no match). -/
def MsgMappers : Type := Nat → Option (String → Option String)

/-- The table with no matching mapper for any code. -/
def noMappers : MsgMappers := fun _ => none

/-- Modelled from the spec: `createMapDiagnosticMessage` lives in
src/utils/errorMessageMapping.js, which is absent from src/.  Per the
spec, the mapper configured for the diagnostic's code is applied first,
falling through to the raw (flattened) compiler message when there is no
mapper or the mapper declines. -/
def mapDiagnosticMessage (mappers : MsgMappers) (d : DiagnosticModel) : List String :=
  match mappers d.code with
  | some f =>
      match f d.messageText with
      | some s => [s]
      | none => [d.messageText]
  | none => [d.messageText]

/-- A surfaced compile-time error: the (possibly relocated) diagnostic,
whether it went through the harness relocation
(`ExecutionHarnessTypeError`) or is a plain `UserCodeTypeError`, and the
relocator's `defaultExportedFunctionNode?.name` (used by the harness
stack getter). -/
structure TypeErrorModel where
  diagnostic : DiagnosticModel
  isHarness : Bool
  exportFunctionName : Option String
deriving DecidableEq

/-- `UserCodeTypeError.message`:
``TypeError: TS<code> <mapped message lines joined by newlines>``. -/
def typeErrorMessage (mappers : MsgMappers) (e : TypeErrorModel) : String :=
  "TypeError: TS" ++ toString e.diagnostic.code ++ " " ++
    String.intercalate "\n" (mapDiagnosticMessage mappers e.diagnostic)

/-- The `location` getter.  Both classes resolve `diagnostic.start`
against the USER unit's text.  The harness override returns `(1, 1)` for
a missing start; the plain class throws there (modelled as `none`). -/
def typeErrorLocation (userText : String) (e : TypeErrorModel) : Option (Nat × Nat) :=
  if e.isHarness then
    some (match e.diagnostic.start with
          | none => (1, 1)
          | some s => lineCharOfPos1 userText s)
  else
    e.diagnostic.start.map (lineCharOfPos1 userText)

/-- `UserCodeTypeError.stack`: locate the diagnostic's node inside the
USER unit, render `at <enclosing function name>(<line>:<column>)` with
the location getter's coordinates.  `none` models the throw on a
diagnostic without a start (or length) position. -/
def userTypeErrorStack (userFile : UserFileModel) (e : TypeErrorModel) : Option String :=
  match e.diagnostic.start, e.diagnostic.length with
  | some s, some l =>
      let loc := lineCharOfPos1 userFile.text s
      some ("at " ++ ((userFile.functionNameAt s (s + l)).getD "") ++
        "(" ++ toString loc.1 ++ ":" ++ toString loc.2 ++ ")")
  | _, _ => none

/-- `UserCodeTypeError.new` (src/UserCodeRunner.ts lines 347-357) plus
the `ExecutionHarnessTypeError` construction it may dispatch to: a
diagnostic whose file's stripped name is the harness unit is relocated
(which may throw), any other diagnostic is wrapped untouched. -/
def newTypeError (userFile : UserFileModel) (argText outText : String)
    (defaultExport : Option DefaultExportModel) (anchor : AnchorNode)
    (d : DiagnosticModel) (fileName : String) : Except PipelineDefect TypeErrorModel :=
  if removeExt fileName = executionHarnessFilename then
    match relocateHarnessDiagnostic userFile argText outText defaultExport anchor d with
    | .ok d' => .ok { diagnostic := d', isHarness := true,
                      exportFunctionName := defaultExport.bind (·.functionName) }
    | .error err => .error err
  else
    .ok { diagnostic := d, isHarness := false, exportFunctionName := none }

/-- The two-variant result container from src/utils/monads.js. -/
inductive Result (α : Type) (ε : Type) where
  | ok (value : α)
  | err (errors : ε)
deriving DecidableEq

/-- `CacheItem`: emitted code per unit plus the user unit's source map. -/
structure CacheItemModel where
  jsFileMap : List (String × String)
  userCodeSourceMap : String
deriving DecidableEq

/-- What the compiler front end (a black box, §6 of the spec) hands the
orchestrator for one run: the two diagnostic passes and, on success, the
emitted code and user source map captured by `writeFile`. -/
structure CompilerResult where
  preEmitDiags : List DiagnosticModel
  emitDiags : List DiagnosticModel
  jsFileMap : List (String × String)
  userCodeSourceMap : String

/-- Checker/AST facts queried during relocation: the default-export facts
and the anchor classification of each harness diagnostic's node. -/
structure TypeInfoModel where
  defaultExport : Option DefaultExportModel
  anchorFor : DiagnosticModel → AnchorNode

/-- One iteration of the `ts.getPreEmitDiagnostics(program).forEach`
body: diagnostics with a file build a `UserCodeTypeError`; file-less
diagnostics whose code chain meets `[1420]` are skipped, any other
file-less diagnostic throws `Unhandled diagnostic: ...`. -/
def preEmitStep (userFile : UserFileModel) (argText outText : String)
    (info : TypeInfoModel) (d : DiagnosticModel) :
    Except PipelineDefect (Option TypeErrorModel) :=
  match d.file with
  | some f =>
      match newTypeError userFile argText outText info.defaultExport (info.anchorFor d) d f with
      | .ok e => .ok (some e)
      | .error err => .error err
  | none =>
      if (getDiagnosticCodes d).any (fun c => [1420].contains c) then
        .ok none
      else
        .error (.unhandledDiagnostic
          ("Unhandled diagnostic: " ++ toString d.code ++ " " ++ d.messageText))

/-- One iteration of the `emitResult.diagnostics.forEach` body: same
dispatch for diagnostics with a file, but EVERY file-less diagnostic
throws (no 1420 filter in this pass). -/
def emitStep (userFile : UserFileModel) (argText outText : String)
    (info : TypeInfoModel) (d : DiagnosticModel) :
    Except PipelineDefect (Option TypeErrorModel) :=
  match d.file with
  | some f =>
      match newTypeError userFile argText outText info.defaultExport (info.anchorFor d) d f with
      | .ok e => .ok (some e)
      | .error err => .error err
  | none =>
      .error (.unhandledDiagnostic
        ("Unhandled diagnostic: " ++ toString d.code ++ " " ++ d.messageText))

/-- Run a diagnostic-handling step over a list, collecting the produced
errors in order; a thrown step aborts the whole run. -/
def collectErrs (step : DiagnosticModel → Except PipelineDefect (Option TypeErrorModel)) :
    List DiagnosticModel → Except PipelineDefect (List TypeErrorModel)
  | [] => .ok []
  | d :: rest =>
      match step d with
      | .error err => .error err
      | .ok o =>
          match collectErrs step rest with
          | .error err => .error err
          | .ok tail => .ok (match o with | some e => e :: tail | none => tail)

/-- `UserCodeRunner.preProcess` after the compiler ran (the compile
itself is the black-box input `comp`): collect the pre-emit pass, then
the emit pass, and return `Err` with the ordered error list when any
diagnostic survived, else `Ok` with the cache item.  `argText` and
`outText` recover `argumentTypeNode.getText()` and
`outputTypeNode.getText()` from the synthesized harness text
``const __args: [<argsTypes>]; let __result: <outputType> | Promise<outputType>>;``. -/
def preProcess (userFile : UserFileModel) (outputType : String) (argsTypes : List String)
    (comp : CompilerResult) (info : TypeInfoModel) :
    Except PipelineDefect (Result CacheItemModel (List TypeErrorModel)) :=
  let argText := "[" ++ String.intercalate ", " argsTypes ++ "]"
  let outText := outputType ++ " | Promise<" ++ outputType ++ ">"
  match collectErrs (preEmitStep userFile argText outText info) comp.preEmitDiags with
  | .error err => .error err
  | .ok errs1 =>
      match collectErrs (emitStep userFile argText outText info) comp.emitDiags with
      | .error err => .error err
      | .ok errs2 =>
          let errs := errs1 ++ errs2
          if errs.isEmpty then .ok (.ok ⟨comp.jsFileMap, comp.userCodeSourceMap⟩)
          else .ok (.err errs)

/-- A JavaScript value held in the execution context (enough structure
for the pipeline, which only stores and reads these slots). -/
inductive Value where
  | undef
  | num (n : Int)
  | str (s : String)
  | arr (vs : List Int)
deriving DecidableEq

/-- The caller-owned `vm.Context`, as a property map. -/
abbrev Ctx : Type := List (String × Value)

/-- Property read (`context.k`). -/
def ctxGet (c : Ctx) (k : String) : Option Value :=
  match c with
  | [] => none
  | (k', v) :: rest => if k' = k then some v else ctxGet rest k

/-- Property write (`context.k = v`): replaces in place or appends. -/
def ctxSet (c : Ctx) (k : String) (v : Value) : Ctx :=
  match c with
  | [] => [(k, v)]
  | (k', v') :: rest => if k' = k then (k, v) :: rest else (k', v') :: ctxSet rest k v

/-- Property removal (`delete context.k`). -/
def ctxDelete (c : Ctx) (k : String) : Ctx :=
  match c with
  | [] => []
  | (k', v') :: rest => if k' = k then ctxDelete rest k else (k', v') :: ctxDelete rest k

/-- One parsed stack frame (stack-trace's `StackFrame`): file name,
function name (both nullable) and generated line/column. -/
structure Frame where
  fileName : Option String
  functionName : Option String
  line : Nat
  column : Nat
deriving DecidableEq

/-- A thrown JS error as the translator sees it: its message and its
parsed stack, innermost frame first. -/
structure JsError where
  message : String
  frames : List Frame
deriving DecidableEq

/-- A parsed source map: generated (line, column) to original
(line, column); a missing entry models a null original position. -/
structure SrcMap where
  entries : List ((Nat × Nat) × (Nat × Nat))
deriving DecidableEq

/-- `SourceMapConsumer.originalPositionFor` (null line/column = `none`). -/
def originalPositionFor (sm : SrcMap) (line column : Nat) : Option (Nat × Nat) :=
  (sm.entries.find? (fun p => p.1 = (line, column))).map (·.2)

/-- A surfaced `UserCodeRuntimeError`: the thrown error's message and
frames plus the user unit's source map. -/
structure RuntimeErrorModel where
  errMessage : String
  frames : List Frame
  sourceMap : SrcMap
deriving DecidableEq

/-- `UserCodeRuntimeError.message`. -/
def runtimeErrorMessage (e : RuntimeErrorModel) : String :=
  "Error: " ++ e.errMessage

/-- `String.prototype.endsWith`, computed on character lists. -/
def strEndsWith (s pat : String) : Bool :=
  leadsWith pat.toList.reverse s.toList.reverse

/-- The two stack filters of `UserCodeRuntimeError.stack`: keep frames
whose file name ENDS WITH the user unit's name, then drop frames without
a file name or whose generated position maps to a null original line. -/
def keptFrames (sm : SrcMap) (frames : List Frame) : List Frame :=
  (frames.filter (fun f =>
      match f.fileName with
      | some s => strEndsWith s userCodeFilename
      | none => false)).filter
    (fun f => f.fileName.isSome && (originalPositionFor sm f.line f.column).isSome)

/-- Rendering of one retained frame:
``at <functionName>(<originalLine>:<originalColumn>)`` (JS string
concatenation prints `null` for a missing name or position part). -/
def renderFrame (sm : SrcMap) (f : Frame) : String :=
  match originalPositionFor sm f.line f.column with
  | some (l, c) =>
      "at " ++ (f.functionName.getD "null") ++ "(" ++ toString l ++ ":" ++ toString c ++ ")"
  | none => "at " ++ (f.functionName.getD "null") ++ "(null:null)"

/-- `UserCodeRuntimeError.stack`: retained frames rendered in stack
order (innermost first), joined by newlines. -/
def runtimeErrorStack (e : RuntimeErrorModel) : String :=
  String.intercalate "\n" ((keptFrames e.sourceMap e.frames).map (renderFrame e.sourceMap))

/-- `UserCodeRuntimeError.location`: the original position of the first
(innermost) frame whose file name IS the user unit (`none` models the
null positions the non-null assertions would produce). -/
def runtimeErrorLocation (e : RuntimeErrorModel) : Option (Nat × Nat) :=
  match e.frames.find? (fun f => f.fileName == some userCodeFilename) with
  | some f => originalPositionFor e.sourceMap f.line f.column
  | none => none

/-- The message head prepended when a runtime failure has no user-unit
stack frame, before the error is rethrown. -/
def outsideUserCodeMsgHead : String :=
  "Error: Runtime error detected outside of user code execution path. This is most likely a bug in the additional library source.\nInherited from:\n"

/-- `UserCodeRuntimeError.new`: throws (with the marker message) when no
parsed frame's file name is exactly the user unit, else wraps the error. -/
def newRuntimeError (error : JsError) (sm : SrcMap) :
    Except PipelineDefect RuntimeErrorModel :=
  match error.frames.find? (fun f => f.fileName == some userCodeFilename) with
  | some _ => .ok { errMessage := error.message, frames := error.frames, sourceMap := sm }
  | none => .error (.outsideUserCode (outsideUserCodeMsgHead ++ error.message))

/-- The sandbox primitive (`harnessModule.evaluate({ timeout })`): either
completes leaving the context in some state, or throws (a user error or
the timeout) leaving the context in some state. -/
inductive EvalOutcome where
  | success (ctx : Ctx)
  | thrown (e : JsError) (ctx : Ctx)

/-- `UserCodeRunner.executeUserCodeFromArtifacts`
(src/UserCodeRunner.ts lines 207-249).  Returns the outcome together
with the final state of the caller's context (the shared mutable
resource).  `harnessImports` are the specifiers the harness module's
link step resolves; `evalFn` is the sandbox black box, applied to the
context holding the two ambient bindings. -/
def executeUserCodeFromArtifacts (jsFileMap : List (String × String)) (sourceMap : SrcMap)
    (harnessImports : List String) (evalFn : Ctx → EvalOutcome)
    (args : Value) (context : Ctx) :
    Except PipelineDefect (Result Value (List RuntimeErrorModel)) × Ctx :=
  let ctx1 := ctxSet (ctxSet context "__args" args) "__result" Value.undef
  match (jsFileMap.find? (fun p => p.1 == executionHarnessFilename)) with
  | none => (.error .missingHarnessModule, ctx1)
  | some _ =>
    match harnessImports.find? (fun s => (jsFileMap.find? (fun p => p.1 == removeExt s)).isNone) with
    | some s => (.error (.unresolvedDependency ("Unable to resolve dependency: " ++ s)), ctx1)
    | none =>
      match evalFn ctx1 with
      | .success ctx2 =>
          let result := (ctxGet ctx2 "__result").getD Value.undef
          let ctx3 := ctxDelete (ctxDelete ctx2 "__args") "__result"
          (.ok (.ok result), ctx3)
      | .thrown e ctx2 =>
          match newRuntimeError e sourceMap with
          | .ok re => (.ok (.err [re]), ctx2)
          | .error err => (.error err, ctx2)

/-- The union of surfaced error kinds at the `executeUserCode` boundary. -/
inductive UserCodeErrorModel where
  | typeErr (e : TypeErrorModel)
  | runtimeErr (e : RuntimeErrorModel)
deriving DecidableEq

/-- `UserCodeRunner.executeUserCode`: `preProcess`, then — unless the
result is `Err`, which is returned as is — `executeUserCodeFromArtifacts`
on the cached artifacts, the source map parsed by `parseMap`
(`new SourceMapConsumer`). -/
def executeUserCode (userFile : UserFileModel) (outputType : String) (argsTypes : List String)
    (comp : CompilerResult) (info : TypeInfoModel) (parseMap : String → SrcMap)
    (harnessImports : List String) (evalFn : Ctx → EvalOutcome)
    (args : Value) (context : Ctx) :
    Except PipelineDefect (Result Value (List UserCodeErrorModel)) × Ctx :=
  match preProcess userFile outputType argsTypes comp info with
  | .error err => (.error err, context)
  | .ok (.err es) => (.ok (.err (es.map UserCodeErrorModel.typeErr)), context)
  | .ok (.ok cache) =>
      match executeUserCodeFromArtifacts cache.jsFileMap (parseMap cache.userCodeSourceMap)
          harnessImports evalFn args context with
      | (.error err, c) => (.error err, c)
      | (.ok (.ok v), c) => (.ok (.ok v), c)
      | (.ok (.err rs), c) => (.ok (.err (rs.map UserCodeErrorModel.runtimeErr)), c)

theorem ctxGet_ctxDelete_self (c : Ctx) (k : String) : ctxGet (ctxDelete c k) k = none := by
  induction c with
  | nil => rfl
  | cons p rest ih =>
      obtain ⟨k', v⟩ := p
      by_cases h : k' = k
      · simpa [ctxDelete, h] using ih
      · simp [ctxDelete, ctxGet, h, ih]

theorem ctxGet_ctxDelete_ne (c : Ctx) (k q : String) (h : q ≠ k) :
    ctxGet (ctxDelete c k) q = ctxGet c q := by
  induction c with
  | nil => rfl
  | cons p rest ih =>
      obtain ⟨k', v⟩ := p
      by_cases hk : k' = k
      · subst hk
        have hq : k' ≠ q := fun hh => h hh.symm
        simp [ctxDelete, ctxGet, hq, ih]
      · simp [ctxDelete, ctxGet, hk, ih]

theorem foldl_min_proj_le_init {α : Type} (f : α → Nat) (xs : List α) (a : Nat) :
    xs.foldl (fun b q => Nat.min b (f q)) a ≤ a := by
  induction xs generalizing a with
  | nil => simp
  | cons x xs ih =>
      calc (x :: xs).foldl (fun b q => Nat.min b (f q)) a
          = xs.foldl (fun b q => Nat.min b (f q)) (Nat.min a (f x)) := rfl
        _ ≤ Nat.min a (f x) := ih _
        _ ≤ a := Nat.min_le_left _ _

theorem le_foldl_max_proj_init {α : Type} (f : α → Nat) (xs : List α) (a : Nat) :
    a ≤ xs.foldl (fun b q => Nat.max b (f q)) a := by
  induction xs generalizing a with
  | nil => simp
  | cons x xs ih =>
      calc a ≤ Nat.max a (f x) := Nat.le_max_left _ _
        _ ≤ xs.foldl (fun b q => Nat.max b (f q)) (Nat.max a (f x)) := ih _
        _ = (x :: xs).foldl (fun b q => Nat.max b (f q)) a := rfl

theorem foldl_max_proj_le {α : Type} (f : α → Nat) (xs : List α) (a n : Nat)
    (ha : a ≤ n) (h : ∀ x ∈ xs, f x ≤ n) :
    xs.foldl (fun b q => Nat.max b (f q)) a ≤ n := by
  induction xs generalizing a with
  | nil => simpa
  | cons x xs ih =>
      have hx : f x ≤ n := h x (by simp)
      have hm : Nat.max a (f x) ≤ n := Nat.max_le.mpr ⟨ha, hx⟩
      exact ih _ hm (fun y hy => h y (by simp [hy]))

theorem collectErrs_all_ok
    (step : DiagnosticModel → Except PipelineDefect (Option TypeErrorModel))
    (ds : List DiagnosticModel)
    (h : ∀ d ∈ ds, ∃ e, step d = .ok (some e)) :
    ∃ es, collectErrs step ds = .ok es ∧ es.length = ds.length := by
  induction ds with
  | nil => exact ⟨[], rfl, rfl⟩
  | cons d rest ih =>
      obtain ⟨e, he⟩ := h d (List.mem_cons_self d rest)
      obtain ⟨es, hes, hlen⟩ := ih (fun d' hd' => h d' (List.mem_cons_of_mem d hd'))
      exact ⟨e :: es, by simp [collectErrs, he, hes], by simp [hlen]⟩

/-- Running example user unit:
`export default (thing: string): string => thing`. -/
def exUserFile : UserFileModel :=
  ⟨"export default (thing: string): string => thing", fun _ _ => none⟩

/-- Call signature of the example export: `(thing: string) => string`. -/
def exCallSig : CallSigModel := ⟨"string", [⟨"string", ⟨16, 29⟩⟩]⟩

/-- Checker facts for the example export (return annotation at 32-38). -/
def exExport : DefaultExportModel := ⟨⟨0, 47⟩, some exCallSig, some ⟨32, 38⟩, none⟩

/-- C8: a thrown runtime failure whose parsed stack has no frame in the
user unit is not returned as `Err`: `UserCodeRuntimeError.new` rewrites
the message with the outside-user-code marker and rethrows, so
`executeUserCodeFromArtifacts` raises instead of returning. -/
theorem C8_outside_user_code_is_rethrown
    (jsFileMap : List (String × String)) (sourceMap : SrcMap)
    (harnessImports : List String) (evalFn : Ctx → EvalOutcome)
    (args : Value) (context : Ctx) (e : JsError) (c2 : Ctx)
    (hH : (jsFileMap.find? (fun p => p.1 == executionHarnessFilename)).isSome = true)
    (hL : ∀ s ∈ harnessImports, (jsFileMap.find? (fun p => p.1 == removeExt s)).isSome = true)
    (hev : evalFn (ctxSet (ctxSet context "__args" args) "__result" Value.undef) = .thrown e c2)
    (hno : ∀ f ∈ e.frames, f.fileName ≠ some userCodeFilename) :
    (executeUserCodeFromArtifacts jsFileMap sourceMap harnessImports evalFn args context).1 =
      .error (.outsideUserCode (outsideUserCodeMsgHead ++ e.message)) := by
  have h1 : harnessImports.find?
      (fun s => (jsFileMap.find? (fun p => p.1 == removeExt s)).isNone) = none := by
    apply List.find?_eq_none.mpr
    intro s hs
    have h2 := hL s hs
    cases hf : jsFileMap.find? (fun p => p.1 == removeExt s) with
    | none => rw [hf] at h2; simp at h2
    | some p => simp
  have hno2 : e.frames.find? (fun f => f.fileName == some userCodeFilename) = none := by
    apply List.find?_eq_none.mpr
    intro f hf
    simpa using hno f hf
  cases hfH : jsFileMap.find? (fun p => p.1 == executionHarnessFilename) with
  | none => rw [hfH] at hH; simp at hH
  | some p => simp [executeUserCodeFromArtifacts, hfH, h1, hev, newRuntimeError, hno2]

theorem C8_outside_user_code_is_rethrown_witness :
    (executeUserCodeFromArtifacts [(executionHarnessFilename, "h")] ⟨[]⟩ []
        (fun c => .thrown ⟨"lib blew up", [⟨some "other-lib", some "g", 3, 1⟩]⟩ c)
        (Value.num 7) []).1 =
      .error (.outsideUserCode (outsideUserCodeMsgHead ++ "lib blew up")) :=
  C8_outside_user_code_is_rethrown
    [(executionHarnessFilename, "h")] ⟨[]⟩ []
    (fun c => .thrown ⟨"lib blew up", [⟨some "other-lib", some "g", 3, 1⟩]⟩ c)
    (Value.num 7) [] ⟨"lib blew up", [⟨some "other-lib", some "g", 3, 1⟩]⟩
    [("__args", Value.num 7), ("__result", Value.undef)]
    (by decide) (by intro s hs; simp at hs) rfl (by decide)

/-- C10: a diagnostic NOT originating in the harness unit — in
particular one from a caller-supplied auxiliary unit — is wrapped
untouched as a plain `UserCodeTypeError`, whose `location` and `stack`
getters resolve `diagnostic.start` against the USER unit's text (the
only text mentioned by the conclusion), not the text of the unit the
diagnostic belongs to. -/
theorem C10_nonharness_diagnostics_located_in_user_text
    (userFile : UserFileModel) (argText outText : String)
    (defaultExport : Option DefaultExportModel) (anchor : AnchorNode)
    (d : DiagnosticModel) (f : String) (s l : Nat)
    (hf : removeExt f ≠ executionHarnessFilename)
    (hs : d.start = some s) (hl : d.length = some l) :
    newTypeError userFile argText outText defaultExport anchor d f =
      .ok { diagnostic := d, isHarness := false, exportFunctionName := none } ∧
    typeErrorLocation userFile.text
        { diagnostic := d, isHarness := false, exportFunctionName := none } =
      some (lineCharOfPos1 userFile.text s) ∧
    userTypeErrorStack userFile
        { diagnostic := d, isHarness := false, exportFunctionName := none } =
      some ("at " ++ ((userFile.functionNameAt s (s + l)).getD "") ++
        "(" ++ toString (lineCharOfPos1 userFile.text s).1 ++ ":" ++
        toString (lineCharOfPos1 userFile.text s).2 ++ ")") := by
  refine ⟨?_, ?_, ?_⟩
  · simp [newTypeError, hf]
  · simp [typeErrorLocation, hs]
  · simp [userTypeErrorStack, hs, hl]

theorem C10_nonharness_diagnostics_located_in_user_text_witness :
    newTypeError ⟨"abc\ndef", fun _ _ => some "g"⟩ "[any]" "any | Promise<any>"
        none .other ⟨some "other-lib", some 5, some 2, 2322, [], "Type mismatch."⟩ "other-lib" =
      .ok ⟨⟨some "other-lib", some 5, some 2, 2322, [], "Type mismatch."⟩, false, none⟩ ∧
    typeErrorLocation "abc\ndef"
        ⟨⟨some "other-lib", some 5, some 2, 2322, [], "Type mismatch."⟩, false, none⟩ =
      some (2, 2) ∧
    userTypeErrorStack ⟨"abc\ndef", fun _ _ => some "g"⟩
        ⟨⟨some "other-lib", some 5, some 2, 2322, [], "Type mismatch."⟩, false, none⟩ =
      some "at g(2:2)" :=
  C10_nonharness_diagnostics_located_in_user_text
    ⟨"abc\ndef", fun _ _ => some "g"⟩ "[any]" "any | Promise<any>" none .other
    ⟨some "other-lib", some 5, some 2, 2322, [], "Type mismatch."⟩ "other-lib" 5 2
    (by decide) rfl rfl

/-- A diagnostic is user-caused for the classifier: it has an
originating file, and when that file is the harness unit it falls into
one of the four relocation categories, so its relocation succeeds. -/
def diagClassifiesOk (userFile : UserFileModel) (argText outText : String)
    (info : TypeInfoModel) (d : DiagnosticModel) : Bool :=
  match d.file with
  | none => false
  | some f =>
      match newTypeError userFile argText outText info.defaultExport (info.anchorFor d) d f with
      | .ok _ => true
      | .error _ => false

theorem step_ok_of_classifiesOk (userFile : UserFileModel) (argText outText : String)
    (info : TypeInfoModel) (d : DiagnosticModel)
    (h : diagClassifiesOk userFile argText outText info d = true) :
    (∃ e, preEmitStep userFile argText outText info d = .ok (some e)) ∧
    (∃ e, emitStep userFile argText outText info d = .ok (some e)) := by
  unfold diagClassifiesOk at h
  cases hf : d.file with
  | none => rw [hf] at h; simp at h
  | some f =>
      rw [hf] at h
      cases hn : newTypeError userFile argText outText info.defaultExport (info.anchorFor d) d f with
      | ok e => exact ⟨⟨e, by simp [preEmitStep, hf, hn]⟩, ⟨e, by simp [emitStep, hf, hn]⟩⟩
      | error err => simp [hn] at h

/-- C2: for user-caused failures the public operations return the `Err`
variant with the ordered error list and never raise: (a) when every
compile diagnostic is user-caused (has a file; harness ones match a
relocation category) and at least one exists, `preProcess` returns `Err`
with one error per diagnostic, in order; (b) when evaluation throws an
error whose stack has a user-unit frame, `executeUserCodeFromArtifacts`
returns `Err` with that single runtime error; (c) `executeUserCode`
passes a `preProcess` `Err` through unchanged. -/
theorem C2_user_failures_are_returned_as_err
    (userFile : UserFileModel) (outputType : String) (argsTypes : List String)
    (comp : CompilerResult) (info : TypeInfoModel)
    (jsFileMap : List (String × String)) (sourceMap : SrcMap)
    (harnessImports : List String) (evalFn : Ctx → EvalOutcome)
    (args : Value) (context : Ctx) (e : JsError) (c2 : Ctx) (parseMap : String → SrcMap)
    (hclass : ∀ d ∈ comp.preEmitDiags ++ comp.emitDiags,
      diagClassifiesOk userFile ("[" ++ String.intercalate ", " argsTypes ++ "]")
        (outputType ++ " | Promise<" ++ outputType ++ ">") info d = true)
    (hne : comp.preEmitDiags ++ comp.emitDiags ≠ [])
    (hH : (jsFileMap.find? (fun p => p.1 == executionHarnessFilename)).isSome = true)
    (hL : ∀ s ∈ harnessImports, (jsFileMap.find? (fun p => p.1 == removeExt s)).isSome = true)
    (hev : evalFn (ctxSet (ctxSet context "__args" args) "__result" Value.undef) = .thrown e c2)
    (huser : ∃ f ∈ e.frames, f.fileName = some userCodeFilename) :
    (∃ es, preProcess userFile outputType argsTypes comp info = .ok (.err es) ∧
        es.length = (comp.preEmitDiags ++ comp.emitDiags).length) ∧
    (executeUserCodeFromArtifacts jsFileMap sourceMap harnessImports evalFn args context).1 =
      .ok (.err [⟨e.message, e.frames, sourceMap⟩]) ∧
    (∀ es, preProcess userFile outputType argsTypes comp info = .ok (.err es) →
      executeUserCode userFile outputType argsTypes comp info parseMap
          harnessImports evalFn args context =
        (.ok (.err (es.map UserCodeErrorModel.typeErr)), context)) := by
  refine ⟨?_, ?_, ?_⟩
  · obtain ⟨es1, hes1, hlen1⟩ := collectErrs_all_ok _ comp.preEmitDiags
      (fun d hd => (step_ok_of_classifiesOk _ _ _ _ _
        (hclass d (List.mem_append_left _ hd))).1)
    obtain ⟨es2, hes2, hlen2⟩ := collectErrs_all_ok _ comp.emitDiags
      (fun d hd => (step_ok_of_classifiesOk _ _ _ _ _
        (hclass d (List.mem_append_right _ hd))).2)
    have hlen : (es1 ++ es2).length = (comp.preEmitDiags ++ comp.emitDiags).length := by
      simp [hlen1, hlen2]
    have hempty : (es1 ++ es2).isEmpty = false := by
      cases hcase : es1 ++ es2 with
      | nil =>
          exfalso
          apply hne
          have := hlen
          rw [hcase] at this
          exact List.length_eq_zero.mp this.symm
      | cons a t => rfl
    exact ⟨es1 ++ es2, by simp [preProcess, hes1, hes2, hempty], hlen⟩
  · have h1 : harnessImports.find?
        (fun s => (jsFileMap.find? (fun p => p.1 == removeExt s)).isNone) = none := by
      apply List.find?_eq_none.mpr
      intro s hs
      have h2 := hL s hs
      cases hf : jsFileMap.find? (fun p => p.1 == removeExt s) with
      | none => rw [hf] at h2; simp at h2
      | some p => simp
    have huser2 : (e.frames.find? (fun f => f.fileName == some userCodeFilename)).isSome := by
      obtain ⟨f, hf, hfe⟩ := huser
      exact List.find?_isSome.mpr ⟨f, hf, by simp [hfe]⟩
    cases hfind : e.frames.find? (fun f => f.fileName == some userCodeFilename) with
    | none => rw [hfind] at huser2; simp at huser2
    | some f0 =>
        cases hfH : jsFileMap.find? (fun p => p.1 == executionHarnessFilename) with
        | none => rw [hfH] at hH; simp at hH
        | some p => simp [executeUserCodeFromArtifacts, hfH, h1, hev, newRuntimeError, hfind]
  · intro es hes
    simp [executeUserCode, hes]

/-- Compile-time scenario for C2: one user-unit diagnostic. -/
def c2Diag : DiagnosticModel := ⟨some userCodeFilename, some 0, some 1, 2322, [], "Type mismatch."⟩

/-- Compiler output for the C2 scenario. -/
def c2Comp : CompilerResult := ⟨[c2Diag], [], [], ""⟩

/-- Checker facts for the C2 scenario. -/
def c2Info : TypeInfoModel := ⟨some exExport, fun _ => .resultNode⟩

/-- A thrown runtime error with a user-unit frame, for C2. -/
def c2Err : JsError := ⟨"boom", [⟨some userCodeFilename, some "f", 1, 0⟩]⟩

/-- Sandbox behaviour for the C2 scenario: throw `c2Err`. -/
def c2EvalFn : Ctx → EvalOutcome := fun c => .thrown c2Err c

theorem C2_user_failures_are_returned_as_err_witness :
    (∃ es, preProcess exUserFile "string" ["string"] c2Comp c2Info = .ok (.err es) ∧
        es.length = (c2Comp.preEmitDiags ++ c2Comp.emitDiags).length) ∧
    (executeUserCodeFromArtifacts [(executionHarnessFilename, "h")] ⟨[]⟩ []
        c2EvalFn (Value.num 1) []).1 =
      .ok (.err [⟨c2Err.message, c2Err.frames, ⟨[]⟩⟩]) ∧
    (∀ es, preProcess exUserFile "string" ["string"] c2Comp c2Info = .ok (.err es) →
      executeUserCode exUserFile "string" ["string"] c2Comp c2Info (fun _ => ⟨[]⟩)
          [] c2EvalFn (Value.num 1) [] =
        (.ok (.err (es.map UserCodeErrorModel.typeErr)), [])) :=
  C2_user_failures_are_returned_as_err exUserFile "string" ["string"] c2Comp c2Info
    [(executionHarnessFilename, "h")] ⟨[]⟩ [] c2EvalFn (Value.num 1) [] c2Err
    [("__args", Value.num 1), ("__result", Value.undef)] (fun _ => ⟨[]⟩)
    (by decide) (by decide) (by decide) (by intro s hs; simp at hs) rfl (by decide)

/-- C3 counterexample scenario: evaluation throws a user-frame error. -/
def c3Err : JsError := ⟨"user function threw", [⟨some userCodeFilename, some "f", 1, 0⟩]⟩

/-- Sandbox behaviour for the C3 counterexample: throw `c3Err` leaving
the context as it was handed over. -/
def c3EvalFn : Ctx → EvalOutcome := fun c => .thrown c3Err c

/-- The C3 counterexample run: a user runtime error on an initially
empty caller context. -/
def c3Run : Except PipelineDefect (Result Value (List RuntimeErrorModel)) × Ctx :=
  executeUserCodeFromArtifacts [(executionHarnessFilename, "h")] ⟨[]⟩ []
    c3EvalFn (Value.num 1) []

/-- C3 counterexample: on the user-runtime-error exit path the two
ambient bindings are NOT removed — the operation returns `Err` while
`__args` and `__result` are still present in the context, refuting
removal "on every exit path". -/
theorem C3_counterexample :
    c3Run.1 = .ok (.err [⟨"user function threw",
        [⟨some userCodeFilename, some "f", 1, 0⟩], ⟨[]⟩⟩]) ∧
    ctxGet c3Run.2 "__args" = some (Value.num 1) ∧
    ctxGet c3Run.2 "__result" = some Value.undef := by
  refine ⟨rfl, rfl, rfl⟩

/-- C3 as amended: the ambient bindings are installed at the start;
AFTER A SUCCESSFUL EVALUATION both are removed and every other binding
is left exactly as the evaluation left it, but on the thrown exit paths
(user runtime error, timeout, outside-user-code defect) the context is
returned exactly as the evaluation left it — no removal is performed —
and on the link-failure paths it still holds the two fresh bindings. -/
theorem C3_amended_cleanup_only_on_success
    (jsFileMap : List (String × String)) (sourceMap : SrcMap)
    (harnessImports : List String) (evalFn : Ctx → EvalOutcome)
    (args : Value) (context : Ctx)
    (hH : (jsFileMap.find? (fun p => p.1 == executionHarnessFilename)).isSome = true)
    (hL : ∀ s ∈ harnessImports, (jsFileMap.find? (fun p => p.1 == removeExt s)).isSome = true) :
    (∀ c2, evalFn (ctxSet (ctxSet context "__args" args) "__result" Value.undef) = .success c2 →
      (executeUserCodeFromArtifacts jsFileMap sourceMap harnessImports evalFn args context).2 =
        ctxDelete (ctxDelete c2 "__args") "__result" ∧
      ctxGet (executeUserCodeFromArtifacts jsFileMap sourceMap harnessImports evalFn args context).2
        "__args" = none ∧
      ctxGet (executeUserCodeFromArtifacts jsFileMap sourceMap harnessImports evalFn args context).2
        "__result" = none ∧
      (∀ k, k ≠ "__args" → k ≠ "__result" →
        ctxGet (executeUserCodeFromArtifacts jsFileMap sourceMap harnessImports evalFn args
          context).2 k = ctxGet c2 k)) ∧
    (∀ e c2, evalFn (ctxSet (ctxSet context "__args" args) "__result" Value.undef) = .thrown e c2 →
      (executeUserCodeFromArtifacts jsFileMap sourceMap harnessImports evalFn args context).2 =
        c2) := by
  have h1 : harnessImports.find?
      (fun s => (jsFileMap.find? (fun p => p.1 == removeExt s)).isNone) = none := by
    apply List.find?_eq_none.mpr
    intro s hs
    have h2 := hL s hs
    cases hf : jsFileMap.find? (fun p => p.1 == removeExt s) with
    | none => rw [hf] at h2; simp at h2
    | some p => simp
  cases hfH : jsFileMap.find? (fun p => p.1 == executionHarnessFilename) with
  | none => rw [hfH] at hH; simp at hH
  | some p =>
      constructor
      · intro c2 hev
        have hrun : (executeUserCodeFromArtifacts jsFileMap sourceMap harnessImports evalFn args
            context).2 = ctxDelete (ctxDelete c2 "__args") "__result" := by
          simp [executeUserCodeFromArtifacts, hfH, h1, hev]
        refine ⟨hrun, ?_, ?_, ?_⟩
        · rw [hrun, ctxGet_ctxDelete_ne _ _ _ (by decide), ctxGet_ctxDelete_self]
        · rw [hrun, ctxGet_ctxDelete_self]
        · intro k hk1 hk2
          rw [hrun, ctxGet_ctxDelete_ne _ _ _ hk2, ctxGet_ctxDelete_ne _ _ _ hk1]
      · intro e c2 hev
        cases hn : newRuntimeError e sourceMap with
        | ok re => simp [executeUserCodeFromArtifacts, hfH, h1, hev, hn]
        | error err => simp [executeUserCodeFromArtifacts, hfH, h1, hev, hn]

theorem C3_amended_cleanup_only_on_success_witness :
    (∀ c2, (fun c => EvalOutcome.success c)
        (ctxSet (ctxSet ([("state", Value.num 9)] : Ctx) "__args" (Value.num 1))
          "__result" Value.undef) = .success c2 →
      (executeUserCodeFromArtifacts [(executionHarnessFilename, "h")] ⟨[]⟩ []
          (fun c => EvalOutcome.success c) (Value.num 1) [("state", Value.num 9)]).2 =
        ctxDelete (ctxDelete c2 "__args") "__result" ∧
      ctxGet (executeUserCodeFromArtifacts [(executionHarnessFilename, "h")] ⟨[]⟩ []
          (fun c => EvalOutcome.success c) (Value.num 1) [("state", Value.num 9)]).2
        "__args" = none ∧
      ctxGet (executeUserCodeFromArtifacts [(executionHarnessFilename, "h")] ⟨[]⟩ []
          (fun c => EvalOutcome.success c) (Value.num 1) [("state", Value.num 9)]).2
        "__result" = none ∧
      (∀ k, k ≠ "__args" → k ≠ "__result" →
        ctxGet (executeUserCodeFromArtifacts [(executionHarnessFilename, "h")] ⟨[]⟩ []
          (fun c => EvalOutcome.success c) (Value.num 1) [("state", Value.num 9)]).2 k =
          ctxGet c2 k)) ∧
    (∀ e c2, (fun c => EvalOutcome.success c)
        (ctxSet (ctxSet ([("state", Value.num 9)] : Ctx) "__args" (Value.num 1))
          "__result" Value.undef) = .thrown e c2 →
      (executeUserCodeFromArtifacts [(executionHarnessFilename, "h")] ⟨[]⟩ []
          (fun c => EvalOutcome.success c) (Value.num 1) [("state", Value.num 9)]).2 = c2) :=
  C3_amended_cleanup_only_on_success [(executionHarnessFilename, "h")] ⟨[]⟩ []
    (fun c => EvalOutcome.success c) (Value.num 1) [("state", Value.num 9)]
    (by decide) (by intro s hs; simp at hs)

/-- Definition following C7's words, for comparison with the code: the
rendered stack restricted to frames whose file IS the user unit (exact
name match) and whose generated position maps to a non-null original
position. -/
def claimedUserUnitStack (e : RuntimeErrorModel) : String :=
  String.intercalate "\n"
    (((e.frames.filter (fun f => f.fileName == some userCodeFilename)).filter
        (fun f => (originalPositionFor e.sourceMap f.line f.column).isSome)).map
      (renderFrame e.sourceMap))

/-- Source map for the C7 counterexample. -/
def c7Map : SrcMap := ⟨[((1, 0), (2, 2)), ((5, 0), (7, 8))]⟩

/-- C7 counterexample error: one frame in the user unit and one in an
auxiliary unit named `aux__user_file`, both resolvable. -/
def c7Err : RuntimeErrorModel :=
  ⟨"nested boom",
   [⟨some userCodeFilename, some "inner", 1, 0⟩,
    ⟨some "aux__user_file", some "helper", 5, 0⟩],
   c7Map⟩

/-- C7 counterexample: the rendered stack is NOT exactly the user-unit
frames — the filter keeps any frame whose file name merely ENDS WITH the
user unit's name, so the `aux__user_file` frame is rendered although its
file is not the user unit. -/
theorem C7_counterexample :
    runtimeErrorStack c7Err = "at inner(2:2)\nat helper(7:8)" ∧
    claimedUserUnitStack c7Err = "at inner(2:2)" ∧
    runtimeErrorStack c7Err ≠ claimedUserUnitStack c7Err ∧
    (⟨some "aux__user_file", some "helper", 5, 0⟩ : Frame).fileName ≠ some userCodeFilename := by
  exact ⟨rfl, rfl, by decide, by decide⟩

/-- C7 as amended: the rendered stack consists of exactly the frames
whose file name ends with the user unit's name and whose generated
position resolves through the source map, rendered
`at <functionName>(<line>:<column>)` in stack order (innermost first,
order preserved); no such frame is the synthesized harness; the
location is the innermost frame whose file IS the user unit, mapped. -/
theorem C7_amended_stack_is_suffix_filtered (e : RuntimeErrorModel) :
    runtimeErrorStack e =
      String.intercalate "\n" ((keptFrames e.sourceMap e.frames).map (renderFrame e.sourceMap)) ∧
    (∀ f ∈ keptFrames e.sourceMap e.frames, ∃ s, f.fileName = some s ∧
        strEndsWith s userCodeFilename = true ∧
        (originalPositionFor e.sourceMap f.line f.column).isSome = true) ∧
    (∀ f ∈ keptFrames e.sourceMap e.frames, f.fileName ≠ some executionHarnessFilename) ∧
    (keptFrames e.sourceMap e.frames).Sublist e.frames ∧
    runtimeErrorLocation e =
      (match e.frames.find? (fun f => f.fileName == some userCodeFilename) with
       | some f => originalPositionFor e.sourceMap f.line f.column
       | none => none) := by
  have h2 : ∀ f ∈ keptFrames e.sourceMap e.frames, ∃ s, f.fileName = some s ∧
      strEndsWith s userCodeFilename = true ∧
      (originalPositionFor e.sourceMap f.line f.column).isSome = true := by
    intro f hf
    unfold keptFrames at hf
    obtain ⟨hf1, hp2⟩ := List.mem_filter.mp hf
    obtain ⟨_, hp1⟩ := List.mem_filter.mp hf1
    cases hfn : f.fileName with
    | none => rw [hfn] at hp1; simp at hp1
    | some s =>
        rw [hfn] at hp1
        simp only [Bool.and_eq_true] at hp2
        exact ⟨s, rfl, hp1, hp2.2⟩
  refine ⟨rfl, h2, ?_, ?_, rfl⟩
  · intro f hf heq
    obtain ⟨s, hs, hend, _⟩ := h2 f hf
    rw [heq] at hs
    cases hs
    exact absurd hend (by decide)
  · exact (List.filter_sublist _).trans (List.filter_sublist _)

theorem removeExt_harness : removeExt executionHarnessFilename = executionHarnessFilename := by
  decide

/-- A `preProcess` run whose only diagnostic is a harness-unit
diagnostic that relocates to `d'` returns `Err` with exactly the one
relocated error. -/
theorem preProcess_single_harness_diag
    (userFile : UserFileModel) (outputType : String) (argsTypes : List String)
    (comp : CompilerResult) (info : TypeInfoModel) (d d' : DiagnosticModel)
    (hpre : comp.preEmitDiags = [d]) (hemit : comp.emitDiags = [])
    (hfile : d.file = some executionHarnessFilename)
    (hrel : relocateHarnessDiagnostic userFile
        ("[" ++ String.intercalate ", " argsTypes ++ "]")
        (outputType ++ " | Promise<" ++ outputType ++ ">")
        info.defaultExport (info.anchorFor d) d = .ok d') :
    preProcess userFile outputType argsTypes comp info =
      .ok (.err [⟨d', true, info.defaultExport.bind (·.functionName)⟩]) := by
  have hstep : preEmitStep userFile
      ("[" ++ String.intercalate ", " argsTypes ++ "]")
      (outputType ++ " | Promise<" ++ outputType ++ ">") info d =
      .ok (some ⟨d', true, info.defaultExport.bind (·.functionName)⟩) := by
    simp [preEmitStep, hfile, newTypeError, removeExt_harness, hrel]
  simp [preProcess, hpre, hemit, collectErrs, hstep]

/-- The return-type-mismatch branch of the relocator (diagnostic node is
the result slot, sync or post-await): range moves to the return-type
annotation if written, else the whole default-export node; templated
message with the harness result-slot type as the Expected text. -/
theorem relocate_return_branch (userFile : UserFileModel) (argText outText : String)
    (de : DefaultExportModel) (cs : CallSigModel) (anchor : AnchorNode) (d : DiagnosticModel)
    (hcs : de.callSig = some cs)
    (ha : anchor = .resultNode ∨ anchor = .asyncResultNode) :
    relocateHarnessDiagnostic userFile argText outText (some de) anchor d =
      .ok { d with
        file := some userCodeFilename
        start := some (match de.returnTypeNodeSpan with
          | some rs => rs.start
          | none => de.span.start)
        length := some (match de.returnTypeNodeSpan with
          | some rs => rs.endPos - rs.start
          | none => de.span.endPos - de.span.start)
        messageText := "Incorrect return type. Expected: '" ++ outText ++ "', Actual: '" ++
          cs.returnTypeString ++ "'." } := by
  rcases ha with h | h <;> subst h <;>
    cases hrt : de.returnTypeNodeSpan <;>
      simp [relocateHarnessDiagnostic, hcs, hrt]

/-- The argument-type-mismatch branch of the relocator (diagnostic node
is the invocation, its callee identifier, or its argument list): range
moves to the span covering the parameters, or the whole default-export
node when there are none; templated message. -/
theorem relocate_argument_branch (userFile : UserFileModel) (argText outText : String)
    (de : DefaultExportModel) (cs : CallSigModel) (anchor : AnchorNode) (d : DiagnosticModel)
    (hcs : de.callSig = some cs)
    (ha : anchor = .defaultFunctionCallNode ∨ anchor = .defaultFunctionIdentifierNode ∨
      anchor = .argumentsNode) :
    relocateHarnessDiagnostic userFile argText outText (some de) anchor d =
      .ok { d with
        file := some userCodeFilename
        start := some (if cs.params.length = 0 then de.span.start else paramsStart cs.params)
        length := some (if cs.params.length = 0 then de.span.endPos - de.span.start
          else paramsEnd cs.params - paramsStart cs.params)
        messageText := "Incorrect argument type. Expected: '" ++ argText ++ "', Actual: " ++
          ("'[" ++ String.intercalate ", " (cs.params.map (·.typeString)) ++ "]'.") } := by
  rcases ha with h | h | h <;> subst h <;> by_cases hp : cs.params.length = 0 <;>
    simp [relocateHarnessDiagnostic, hcs, hp]

/-- C5 as amended: for a harness diagnostic at the result-slot anchor
(sync or post-await) with a callable default export, the relocated
diagnostic's message text is exactly the template with the HARNESS
RESULT SLOT's annotation `<declared> | Promise<<declared>>` as the
Expected text; the range is the return-type annotation when written,
else the whole default-export node; and the surfaced `message` property
is the template PREFIXED with `TypeError: TS<code> `. -/
theorem C5_amended_return_mismatch
    (userFile : UserFileModel) (outputType : String) (argsTypes : List String)
    (comp : CompilerResult) (info : TypeInfoModel) (d : DiagnosticModel)
    (de : DefaultExportModel) (cs : CallSigModel)
    (hpre : comp.preEmitDiags = [d]) (hemit : comp.emitDiags = [])
    (hfile : d.file = some executionHarnessFilename)
    (hde : info.defaultExport = some de) (hcs : de.callSig = some cs)
    (ha : info.anchorFor d = .resultNode ∨ info.anchorFor d = .asyncResultNode) :
    ∃ e, preProcess userFile outputType argsTypes comp info = .ok (.err [e]) ∧
      e.diagnostic.messageText = "Incorrect return type. Expected: '" ++
        (outputType ++ " | Promise<" ++ outputType ++ ">") ++ "', Actual: '" ++
        cs.returnTypeString ++ "'." ∧
      e.diagnostic.file = some userCodeFilename ∧
      e.diagnostic.start = some (match de.returnTypeNodeSpan with
        | some rs => rs.start
        | none => de.span.start) ∧
      e.diagnostic.length = some (match de.returnTypeNodeSpan with
        | some rs => rs.endPos - rs.start
        | none => de.span.endPos - de.span.start) ∧
      typeErrorMessage noMappers e = "TypeError: TS" ++ toString d.code ++ " " ++
        e.diagnostic.messageText := by
  have hrel := relocate_return_branch userFile
    ("[" ++ String.intercalate ", " argsTypes ++ "]")
    (outputType ++ " | Promise<" ++ outputType ++ ">") de cs (info.anchorFor d) d hcs ha
  have hp := preProcess_single_harness_diag userFile outputType argsTypes comp info d _
    hpre hemit hfile (by rw [hde]; exact hrel)
  exact ⟨_, hp, rfl, rfl, rfl, rfl, rfl⟩

/-- Scenario for C5: a harness diagnostic classified at the result node,
with declared return type `number` while the export returns `string`. -/
def c5Diag : DiagnosticModel := ⟨some executionHarnessFilename, some 200, some 8, 2322, [], "Type mismatch"⟩

/-- Compiler output for the C5 scenario. -/
def c5Comp : CompilerResult := ⟨[c5Diag], [], [], ""⟩

/-- Checker facts for the C5 scenario. -/
def c5Info : TypeInfoModel := ⟨some exExport, fun _ => .resultNode⟩

/-- C5 counterexample: the surfaced failure's message is NOT exactly
`Incorrect return type. Expected: '<declared>', Actual: '<actual>'.` —
the Expected text carries the `| Promise<...>` union from the harness
result slot, and the `message` property also carries the
`TypeError: TS<code> ` head. -/
theorem C5_counterexample :
    ∃ e, preProcess exUserFile "number" ["string"] c5Comp c5Info = .ok (.err [e]) ∧
      e.diagnostic.messageText =
        "Incorrect return type. Expected: 'number | Promise<number>', Actual: 'string'." ∧
      e.diagnostic.messageText ≠
        "Incorrect return type. Expected: 'number', Actual: 'string'." ∧
      typeErrorMessage noMappers e ≠
        "Incorrect return type. Expected: 'number', Actual: 'string'." := by
  refine ⟨⟨⟨some userCodeFilename, some 32, some 6, 2322, [],
    "Incorrect return type. Expected: 'number | Promise<number>', Actual: 'string'."⟩,
    true, none⟩, ?_, rfl, by decide, by decide⟩
  rfl

theorem C5_amended_return_mismatch_witness :
    ∃ e, preProcess exUserFile "number" ["string"] c5Comp c5Info = .ok (.err [e]) ∧
      e.diagnostic.messageText = "Incorrect return type. Expected: '" ++
        ("number" ++ " | Promise<" ++ "number" ++ ">") ++ "', Actual: '" ++
        exCallSig.returnTypeString ++ "'." ∧
      e.diagnostic.file = some userCodeFilename ∧
      e.diagnostic.start = some (match exExport.returnTypeNodeSpan with
        | some rs => rs.start
        | none => exExport.span.start) ∧
      e.diagnostic.length = some (match exExport.returnTypeNodeSpan with
        | some rs => rs.endPos - rs.start
        | none => exExport.span.endPos - exExport.span.start) ∧
      typeErrorMessage noMappers e = "TypeError: TS" ++ toString c5Diag.code ++ " " ++
        e.diagnostic.messageText :=
  C5_amended_return_mismatch exUserFile "number" ["string"] c5Comp c5Info c5Diag
    exExport exCallSig rfl rfl rfl rfl rfl (Or.inl rfl)

/-- C6 as amended: for a harness diagnostic at the invocation, callee or
argument-list anchor with a callable default export, the relocated
diagnostic's message text is exactly the
`Incorrect argument type. Expected: '<tuple>', Actual: '[<params>]'.`
template, the range covers the parameters (or the whole default-export
node when there are none), and the surfaced `message` property is the
template PREFIXED with `TypeError: TS<code> `. -/
theorem C6_amended_argument_mismatch
    (userFile : UserFileModel) (outputType : String) (argsTypes : List String)
    (comp : CompilerResult) (info : TypeInfoModel) (d : DiagnosticModel)
    (de : DefaultExportModel) (cs : CallSigModel)
    (hpre : comp.preEmitDiags = [d]) (hemit : comp.emitDiags = [])
    (hfile : d.file = some executionHarnessFilename)
    (hde : info.defaultExport = some de) (hcs : de.callSig = some cs)
    (ha : info.anchorFor d = .defaultFunctionCallNode ∨
      info.anchorFor d = .defaultFunctionIdentifierNode ∨
      info.anchorFor d = .argumentsNode) :
    ∃ e, preProcess userFile outputType argsTypes comp info = .ok (.err [e]) ∧
      e.diagnostic.messageText = "Incorrect argument type. Expected: '" ++
        ("[" ++ String.intercalate ", " argsTypes ++ "]") ++ "', Actual: " ++
        ("'[" ++ String.intercalate ", " (cs.params.map (·.typeString)) ++ "]'.") ∧
      e.diagnostic.file = some userCodeFilename ∧
      e.diagnostic.start = some (if cs.params.length = 0 then de.span.start
        else paramsStart cs.params) ∧
      e.diagnostic.length = some (if cs.params.length = 0 then de.span.endPos - de.span.start
        else paramsEnd cs.params - paramsStart cs.params) ∧
      typeErrorMessage noMappers e = "TypeError: TS" ++ toString d.code ++ " " ++
        e.diagnostic.messageText := by
  have hrel := relocate_argument_branch userFile
    ("[" ++ String.intercalate ", " argsTypes ++ "]")
    (outputType ++ " | Promise<" ++ outputType ++ ">") de cs (info.anchorFor d) d hcs ha
  have hp := preProcess_single_harness_diag userFile outputType argsTypes comp info d _
    hpre hemit hfile (by rw [hde]; exact hrel)
  exact ⟨_, hp, rfl, rfl, rfl, rfl, rfl⟩

/-- Call signature for the C6 scenario: two parameters
`(thing: string, other: number)` while one argument type is declared. -/
def c6CallSig : CallSigModel := ⟨"string", [⟨"string", ⟨16, 29⟩⟩, ⟨"number", ⟨31, 44⟩⟩]⟩

/-- Checker facts for the C6 scenario's default export. -/
def c6Export : DefaultExportModel := ⟨⟨0, 60⟩, some c6CallSig, some ⟨47, 53⟩, some "MyDSLFunction"⟩

/-- The harness diagnostic of the C6 scenario. -/
def c6Diag : DiagnosticModel := ⟨some executionHarnessFilename, some 210, some 4, 2345, [], "Argument mismatch"⟩

/-- Compiler output for the C6 scenario. -/
def c6Comp : CompilerResult := ⟨[c6Diag], [], [], ""⟩

/-- Checker facts for the C6 scenario. -/
def c6Info : TypeInfoModel := ⟨some c6Export, fun _ => .argumentsNode⟩

/-- C6 counterexample: the relocated message TEXT is exactly the
claimed template, but the failure's surfaced `message` property is not —
it carries the `TypeError: TS<code> ` head. -/
theorem C6_counterexample :
    ∃ e, preProcess exUserFile "string" ["string"] c6Comp c6Info = .ok (.err [e]) ∧
      e.diagnostic.messageText =
        "Incorrect argument type. Expected: '[string]', Actual: '[string, number]'." ∧
      typeErrorMessage noMappers e =
        "TypeError: TS2345 Incorrect argument type. Expected: '[string]', Actual: '[string, number]'." ∧
      typeErrorMessage noMappers e ≠
        "Incorrect argument type. Expected: '[string]', Actual: '[string, number]'." := by
  refine ⟨⟨⟨some userCodeFilename, some 16, some 28, 2345, [],
    "Incorrect argument type. Expected: '[string]', Actual: '[string, number]'."⟩,
    true, some "MyDSLFunction"⟩, ?_, rfl, rfl, by decide⟩
  rfl

theorem C6_amended_argument_mismatch_witness :
    ∃ e, preProcess exUserFile "string" ["string"] c6Comp c6Info = .ok (.err [e]) ∧
      e.diagnostic.messageText = "Incorrect argument type. Expected: '" ++
        ("[" ++ String.intercalate ", " ["string"] ++ "]") ++ "', Actual: " ++
        ("'[" ++ String.intercalate ", " (c6CallSig.params.map (·.typeString)) ++ "]'.") ∧
      e.diagnostic.file = some userCodeFilename ∧
      e.diagnostic.start = some (if c6CallSig.params.length = 0 then c6Export.span.start
        else paramsStart c6CallSig.params) ∧
      e.diagnostic.length = some (if c6CallSig.params.length = 0 then
        c6Export.span.endPos - c6Export.span.start
        else paramsEnd c6CallSig.params - paramsStart c6CallSig.params) ∧
      typeErrorMessage noMappers e = "TypeError: TS" ++ toString c6Diag.code ++ " " ++
        e.diagnostic.messageText :=
  C6_amended_argument_mismatch exUserFile "string" ["string"] c6Comp c6Info c6Diag
    c6Export c6CallSig rfl rfl rfl rfl rfl (Or.inr (Or.inr rfl))

/-- The no-default-export branch of the relocator: range moves to the
user unit from its first token (`SourceFile.getStart()`, i.e. after
leading trivia) to its end, with the required-signature message. -/
theorem relocate_no_default_export (userFile : UserFileModel) (argText outText : String)
    (anchor : AnchorNode) (d : DiagnosticModel) :
    relocateHarnessDiagnostic userFile argText outText none anchor d =
      .ok { d with
        file := some userCodeFilename
        start := some (skipLeadingTrivia userFile.text)
        length := some (userFile.text.length - skipLeadingTrivia userFile.text)
        messageText := "No default export. Expected a default export function with the signature: \"(...args: " ++ argText ++ ") => " ++ outText ++ "\"." } := rfl

/-- C4 as amended: when the compiler reports the missing default export
as a single harness diagnostic, the returned failure holds exactly one
diagnostic; its range runs from the user unit's FIRST TOKEN (after
leading trivia) to the end of the text; its location is the line of
that first token — line 1 exactly when the text does not start with
trivia; and its message states the required signature in the form
`(...args: <argTuple>) => <returnType> | Promise<<returnType>>`. -/
theorem C4_amended_no_default_export
    (userFile : UserFileModel) (outputType : String) (argsTypes : List String)
    (comp : CompilerResult) (info : TypeInfoModel) (d : DiagnosticModel)
    (hpre : comp.preEmitDiags = [d]) (hemit : comp.emitDiags = [])
    (hfile : d.file = some executionHarnessFilename)
    (hde : info.defaultExport = none) :
    ∃ e, preProcess userFile outputType argsTypes comp info = .ok (.err [e]) ∧
      e.diagnostic.messageText =
        "No default export. Expected a default export function with the signature: \"(...args: " ++
          ("[" ++ String.intercalate ", " argsTypes ++ "]") ++ ") => " ++
          (outputType ++ " | Promise<" ++ outputType ++ ">") ++ "\"." ∧
      e.diagnostic.file = some userCodeFilename ∧
      e.diagnostic.start = some (skipLeadingTrivia userFile.text) ∧
      e.diagnostic.length = some (userFile.text.length - skipLeadingTrivia userFile.text) ∧
      typeErrorLocation userFile.text e =
        some (lineCharOfPos1 userFile.text (skipLeadingTrivia userFile.text)) ∧
      (skipLeadingTrivia userFile.text = 0 →
        typeErrorLocation userFile.text e = some (1, 1)) := by
  have hp := preProcess_single_harness_diag userFile outputType argsTypes comp info d _
    hpre hemit hfile (by
      rw [hde]
      exact relocate_no_default_export userFile _ _ (info.anchorFor d) d)
  refine ⟨_, hp, rfl, rfl, rfl, rfl, rfl, ?_⟩
  intro h
  simp [typeErrorLocation, h, lineCharOfPos1, lineCharOfPos, lineColAux]

/-- C4 counterexample user unit: leading newline before the code. -/
def c4UserFile : UserFileModel := ⟨"\nlet x = 1;", fun _ _ => none⟩

/-- The harness diagnostic of the C4 counterexample (no default
export: the error on the harness's default import). -/
def c4Diag : DiagnosticModel := ⟨some executionHarnessFilename, some 90, some 11, 1192, [], "Module has no default export."⟩

/-- Compiler output for the C4 counterexample. -/
def c4Comp : CompilerResult := ⟨[c4Diag], [], [], ""⟩

/-- Checker facts for the C4 counterexample: no default export. -/
def c4Info : TypeInfoModel := ⟨none, fun _ => .other⟩

/-- C4 counterexample: for a user unit starting with a line break and no
default export, the surfaced diagnostic's location is line 2, not
line 1, and its range starts at offset 1, not at the start of the text;
the signature in the message also unions the declared return type with
its Promise. -/
theorem C4_counterexample :
    ∃ e, preProcess c4UserFile "number" ["string"] c4Comp c4Info = .ok (.err [e]) ∧
      typeErrorLocation c4UserFile.text e = some (2, 1) ∧
      (typeErrorLocation c4UserFile.text e).map Prod.fst ≠ some 1 ∧
      e.diagnostic.start = some 1 ∧
      e.diagnostic.messageText =
        "No default export. Expected a default export function with the signature: \"(...args: [string]) => number | Promise<number>\"." := by
  refine ⟨⟨⟨some userCodeFilename, some 1, some 10, 1192, [],
    "No default export. Expected a default export function with the signature: \"(...args: [string]) => number | Promise<number>\"."⟩,
    true, none⟩, ?_, rfl, by decide, rfl, rfl⟩
  rfl

theorem C4_amended_no_default_export_witness :
    ∃ e, preProcess exUserFile "number" ["string"] c4Comp c4Info = .ok (.err [e]) ∧
      e.diagnostic.messageText =
        "No default export. Expected a default export function with the signature: \"(...args: " ++
          ("[" ++ String.intercalate ", " ["string"] ++ "]") ++ ") => " ++
          ("number" ++ " | Promise<" ++ "number" ++ ">") ++ "\"." ∧
      e.diagnostic.file = some userCodeFilename ∧
      e.diagnostic.start = some (skipLeadingTrivia exUserFile.text) ∧
      e.diagnostic.length = some (exUserFile.text.length - skipLeadingTrivia exUserFile.text) ∧
      typeErrorLocation exUserFile.text e =
        some (lineCharOfPos1 exUserFile.text (skipLeadingTrivia exUserFile.text)) ∧
      (skipLeadingTrivia exUserFile.text = 0 →
        typeErrorLocation exUserFile.text e = some (1, 1)) :=
  C4_amended_no_default_export exUserFile "number" ["string"] c4Comp c4Info c4Diag
    rfl rfl rfl rfl

/-- C9 as amended: in the PRE-EMISSION pass a file-less diagnostic whose
code chain meets 1420 is silently skipped and any other file-less
diagnostic raises; in the EMISSION pass EVERY file-less diagnostic
raises (the 1420 filter is absent there); and a harness diagnostic whose
node matches none of the anchors — when the user unit has a callable
default export, so neither of the first two categories applies — makes
the relocation raise. -/
theorem C9_amended_fileless_and_anchor_defects
    (userFile : UserFileModel) (argText outText : String) (info : TypeInfoModel)
    (outputType : String) (argsTypes : List String) (comp2 : CompilerResult)
    (d : DiagnosticModel) (de : DefaultExportModel) (cs : CallSigModel) :
    (d.file = none → (getDiagnosticCodes d).any (fun c => [1420].contains c) = true →
      preEmitStep userFile argText outText info d = .ok none) ∧
    (d.file = none → (getDiagnosticCodes d).any (fun c => [1420].contains c) = false →
      preEmitStep userFile argText outText info d =
        .error (.unhandledDiagnostic
          ("Unhandled diagnostic: " ++ toString d.code ++ " " ++ d.messageText))) ∧
    (d.file = none →
      emitStep userFile argText outText info d =
        .error (.unhandledDiagnostic
          ("Unhandled diagnostic: " ++ toString d.code ++ " " ++ d.messageText))) ∧
    (comp2.preEmitDiags = [] → comp2.emitDiags = [d] → d.file = none →
      preProcess userFile outputType argsTypes comp2 info =
        .error (.unhandledDiagnostic
          ("Unhandled diagnostic: " ++ toString d.code ++ " " ++ d.messageText))) ∧
    (info.defaultExport = some de → de.callSig = some cs → info.anchorFor d = .other →
      relocateHarnessDiagnostic userFile argText outText
        info.defaultExport (info.anchorFor d) d = .error .unmatchedAnchorNode) := by
  refine ⟨?_, ?_, ?_, ?_, ?_⟩
  · intro h1 h2
    simp at h2
    simp [preEmitStep, h1, h2]
  · intro h1 h2
    simp at h2
    have h3 : 1420 ∉ getDiagnosticCodes d := fun hm => h2 1420 hm rfl
    simp [preEmitStep, h1, h3]
  · intro h1
    simp [emitStep, h1]
  · intro h1 h2 h3
    simp [preProcess, h1, h2, collectErrs, emitStep, h3]
  · intro h1 h2 h3
    rw [h1, h3]
    simp [relocateHarnessDiagnostic, h2]

/-- The file-less 1420 diagnostic of the C9 counterexample, surfacing in
the EMISSION pass. -/
def c9Diag : DiagnosticModel := ⟨none, none, none, 1420, [], "Implicit lib import"⟩

/-- Compiler output for the C9 counterexample. -/
def c9Comp : CompilerResult := ⟨[], [c9Diag], [], ""⟩

/-- Checker facts for the C9 counterexample. -/
def c9Info : TypeInfoModel := ⟨none, fun _ => .other⟩

/-- C9 counterexample: a file-less diagnostic with code 1420 arriving in
the EMISSION pass is NOT silently ignored — the run raises. -/
theorem C9_counterexample :
    preProcess exUserFile "any" ["any"] c9Comp c9Info =
      .error (.unhandledDiagnostic "Unhandled diagnostic: 1420 Implicit lib import") ∧
    (∀ r, preProcess exUserFile "any" ["any"] c9Comp c9Info ≠ .ok r) := by
  have h0 : preProcess exUserFile "any" ["any"] c9Comp c9Info =
      .error (.unhandledDiagnostic "Unhandled diagnostic: 1420 Implicit lib import") := rfl
  refine ⟨h0, ?_⟩
  intro r h
  rw [h0] at h
  exact absurd h (by simp)

/-- A file-less non-1420 diagnostic for the C9 witness. -/
def c9OtherDiag : DiagnosticModel := ⟨none, none, none, 2688, [], "Cannot find type definition file."⟩

/-- Checker facts with a callable default export and an unmatched
anchor, for the C9 witness. -/
def c9AnchorInfo : TypeInfoModel := ⟨some exExport, fun _ => .other⟩

theorem C9_amended_fileless_and_anchor_defects_witness :
    preEmitStep exUserFile "[any]" "any | Promise<any>" c9AnchorInfo c9Diag = .ok none ∧
    preEmitStep exUserFile "[any]" "any | Promise<any>" c9AnchorInfo c9OtherDiag =
      .error (.unhandledDiagnostic
        ("Unhandled diagnostic: " ++ toString c9OtherDiag.code ++ " " ++ c9OtherDiag.messageText)) ∧
    emitStep exUserFile "[any]" "any | Promise<any>" c9AnchorInfo c9Diag =
      .error (.unhandledDiagnostic
        ("Unhandled diagnostic: " ++ toString c9Diag.code ++ " " ++ c9Diag.messageText)) ∧
    preProcess exUserFile "any" ["any"] c9Comp c9AnchorInfo =
      .error (.unhandledDiagnostic
        ("Unhandled diagnostic: " ++ toString c9Diag.code ++ " " ++ c9Diag.messageText)) ∧
    relocateHarnessDiagnostic exUserFile "[any]" "any | Promise<any>"
      c9AnchorInfo.defaultExport (c9AnchorInfo.anchorFor c9OtherDiag) c9OtherDiag =
      .error .unmatchedAnchorNode := by
  refine ⟨?_, ?_, ?_, ?_, ?_⟩
  · exact (C9_amended_fileless_and_anchor_defects exUserFile "[any]" "any | Promise<any>"
      c9AnchorInfo "any" ["any"] c9Comp c9Diag exExport exCallSig).1 rfl (by decide)
  · exact (C9_amended_fileless_and_anchor_defects exUserFile "[any]" "any | Promise<any>"
      c9AnchorInfo "any" ["any"] c9Comp c9OtherDiag exExport exCallSig).2.1 rfl (by decide)
  · exact (C9_amended_fileless_and_anchor_defects exUserFile "[any]" "any | Promise<any>"
      c9AnchorInfo "any" ["any"] c9Comp c9Diag exExport exCallSig).2.2.1 rfl
  · exact (C9_amended_fileless_and_anchor_defects exUserFile "[any]" "any | Promise<any>"
      c9AnchorInfo "any" ["any"] c9Comp c9Diag exExport exCallSig).2.2.2.1 rfl rfl rfl
  · exact (C9_amended_fileless_and_anchor_defects exUserFile "[any]" "any | Promise<any>"
      c9AnchorInfo "any" ["any"] c9Comp c9OtherDiag exExport exCallSig).2.2.2.2 rfl rfl rfl

/-- A node span lies inside a text of length `n`. -/
def spanWithin (n : Nat) (s : Span) : Prop := s.start ≤ s.endPos ∧ s.endPos ≤ n

/-- The spans the relocator may move a diagnostic to are spans of nodes
of the user unit's AST, hence lie inside the user unit's text. -/
def exportSpansWithin (n : Nat) : Option DefaultExportModel → Prop
  | none => True
  | some de => spanWithin n de.span ∧
      (∀ rs, de.returnTypeNodeSpan = some rs → spanWithin n rs) ∧
      (∀ cs, de.callSig = some cs → ∀ p ∈ cs.params, spanWithin n p.declSpan)

instance (n : Nat) (s : Span) : Decidable (spanWithin n s) := by
  unfold spanWithin
  infer_instance

theorem params_span_bounds (n : Nat) (ps : List ParamModel) (hne : ps ≠ [])
    (h : ∀ p ∈ ps, spanWithin n p.declSpan) :
    paramsStart ps ≤ paramsEnd ps ∧ paramsEnd ps ≤ n := by
  cases ps with
  | nil => exact absurd rfl hne
  | cons p rest =>
      have hp := h p (List.mem_cons_self p rest)
      have h1 : paramsStart (p :: rest) ≤ p.declSpan.start := by
        have hh := foldl_min_proj_le_init
          (fun q : ParamModel => q.declSpan.start) rest p.declSpan.start
        simpa [paramsStart] using hh
      have h2 : p.declSpan.endPos ≤ paramsEnd (p :: rest) := by
        have hh := le_foldl_max_proj_init
          (fun q : ParamModel => q.declSpan.endPos) rest p.declSpan.endPos
        simpa [paramsEnd] using hh
      have h3 : paramsEnd (p :: rest) ≤ n := by
        have hh := foldl_max_proj_le
          (fun q : ParamModel => q.declSpan.endPos) rest p.declSpan.endPos n hp.2
          (fun q hq => (h q (List.mem_cons_of_mem p hq)).2)
        simpa [paramsEnd] using hh
      have hp1 := hp.1
      exact ⟨by omega, h3⟩

theorem relocated_return_bounds (userFile : UserFileModel) (argText outText : String)
    (de : DefaultExportModel) (cs : CallSigModel) (anchor : AnchorNode) (d d' : DiagnosticModel)
    (hsp : spanWithin userFile.text.length de.span)
    (hrt : ∀ rs, de.returnTypeNodeSpan = some rs → spanWithin userFile.text.length rs)
    (hcs : de.callSig = some cs)
    (ha : anchor = .resultNode ∨ anchor = .asyncResultNode)
    (hrel : relocateHarnessDiagnostic userFile argText outText (some de) anchor d = .ok d') :
    d'.file = some userCodeFilename ∧
      ∃ s l, d'.start = some s ∧ d'.length = some l ∧ s + l ≤ userFile.text.length := by
  rw [relocate_return_branch userFile argText outText de cs anchor d hcs ha] at hrel
  cases hrel
  cases hrta : de.returnTypeNodeSpan with
  | some rs =>
      obtain ⟨ha1, ha2⟩ := hrt rs hrta
      exact ⟨rfl, rs.start, rs.endPos - rs.start, by simp [hrta], by simp [hrta], by omega⟩
  | none =>
      obtain ⟨ha1, ha2⟩ := hsp
      exact ⟨rfl, de.span.start, de.span.endPos - de.span.start,
        by simp [hrta], by simp [hrta], by omega⟩

theorem relocated_argument_bounds (userFile : UserFileModel) (argText outText : String)
    (de : DefaultExportModel) (cs : CallSigModel) (anchor : AnchorNode) (d d' : DiagnosticModel)
    (hsp : spanWithin userFile.text.length de.span)
    (hps : ∀ p ∈ cs.params, spanWithin userFile.text.length p.declSpan)
    (hcs : de.callSig = some cs)
    (ha : anchor = .defaultFunctionCallNode ∨ anchor = .defaultFunctionIdentifierNode ∨
      anchor = .argumentsNode)
    (hrel : relocateHarnessDiagnostic userFile argText outText (some de) anchor d = .ok d') :
    d'.file = some userCodeFilename ∧
      ∃ s l, d'.start = some s ∧ d'.length = some l ∧ s + l ≤ userFile.text.length := by
  rw [relocate_argument_branch userFile argText outText de cs anchor d hcs ha] at hrel
  cases hrel
  by_cases hp : cs.params.length = 0
  · obtain ⟨ha1, ha2⟩ := hsp
    exact ⟨rfl, de.span.start, de.span.endPos - de.span.start,
      by simp [hp], by simp [hp], by omega⟩
  · have hne : cs.params ≠ [] := fun hh => hp (by simp [hh])
    obtain ⟨hb1, hb2⟩ := params_span_bounds userFile.text.length cs.params hne hps
    exact ⟨rfl, paramsStart cs.params, paramsEnd cs.params - paramsStart cs.params,
      by simp [hp], by simp [hp], by omega⟩

/-- C1 as amended: every HARNESS-originated diagnostic that relocates
(without raising) ends with its file set to the user unit and a range
inside the user unit's text, and every diagnostic from any OTHER unit —
the user unit or an auxiliary unit — is passed through with its file and
range untouched (so an auxiliary-unit diagnostic keeps its own file and
its range is not an offset of the user unit). -/
theorem C1_amended_surfaced_diagnostics_ranges
    (userFile : UserFileModel) (argText outText : String)
    (defaultExport : Option DefaultExportModel) (anchor : AnchorNode)
    (d d' : DiagnosticModel) (f : String)
    (hwf : exportSpansWithin userFile.text.length defaultExport)
    (hrel : relocateHarnessDiagnostic userFile argText outText defaultExport anchor d = .ok d') :
    (d'.file = some userCodeFilename ∧
      ∃ s l, d'.start = some s ∧ d'.length = some l ∧ s + l ≤ userFile.text.length) ∧
    (removeExt f ≠ executionHarnessFilename →
      newTypeError userFile argText outText defaultExport anchor d f = .ok ⟨d, false, none⟩) := by
  constructor
  · cases defaultExport with
    | none =>
        rw [relocate_no_default_export] at hrel
        cases hrel
        have hb := skipLeadingTrivia_le userFile.text
        exact ⟨rfl, skipLeadingTrivia userFile.text,
          userFile.text.length - skipLeadingTrivia userFile.text, rfl, rfl, by omega⟩
    | some de =>
        obtain ⟨hsp, hrt, hps⟩ := hwf
        cases hcs : de.callSig with
        | none =>
            simp only [relocateHarnessDiagnostic, hcs, Except.ok.injEq] at hrel
            cases hrel
            obtain ⟨ha1, ha2⟩ := hsp
            exact ⟨rfl, de.span.start, de.span.endPos - de.span.start, rfl, rfl, by omega⟩
        | some cs =>
            cases anchor with
            | resultNode =>
                exact relocated_return_bounds userFile argText outText de cs _ d d'
                  hsp hrt hcs (Or.inl rfl) hrel
            | asyncResultNode =>
                exact relocated_return_bounds userFile argText outText de cs _ d d'
                  hsp hrt hcs (Or.inr rfl) hrel
            | defaultFunctionCallNode =>
                exact relocated_argument_bounds userFile argText outText de cs _ d d'
                  hsp (hps cs hcs) hcs (Or.inl rfl) hrel
            | defaultFunctionIdentifierNode =>
                exact relocated_argument_bounds userFile argText outText de cs _ d d'
                  hsp (hps cs hcs) hcs (Or.inr (Or.inl rfl)) hrel
            | argumentsNode =>
                exact relocated_argument_bounds userFile argText outText de cs _ d d'
                  hsp (hps cs hcs) hcs (Or.inr (Or.inr rfl)) hrel
            | other =>
                simp [relocateHarnessDiagnostic, hcs] at hrel
  · intro hne
    simp [newTypeError, hne]

/-- An auxiliary-unit diagnostic, for the C1 counterexample. -/
def c1Diag : DiagnosticModel := ⟨some "other-lib", some 3, some 2, 2322, [], "Type mismatch."⟩

/-- Compiler output for the C1 counterexample. -/
def c1Comp : CompilerResult := ⟨[c1Diag], [], [], ""⟩

/-- Checker facts for the C1 counterexample. -/
def c1Info : TypeInfoModel := ⟨some exExport, fun _ => .other⟩

/-- C1 counterexample: a diagnostic originating in a caller-supplied
auxiliary unit is returned by `preProcess` untouched — its file is the
auxiliary unit, not the user unit, so NOT every returned diagnostic's
file and range lie inside the user unit. -/
theorem C1_counterexample :
    preProcess exUserFile "string" ["string"] c1Comp c1Info =
      .ok (.err [⟨c1Diag, false, none⟩]) ∧
    c1Diag.file ≠ some userCodeFilename := by
  exact ⟨rfl, by decide⟩

/-- The relocated diagnostic of the C1 witness scenario. -/
def c1Relocated : DiagnosticModel :=
  { c5Diag with
    file := some userCodeFilename
    start := some 32
    length := some 6
    messageText := "Incorrect return type. Expected: 'string | Promise<string>', Actual: 'string'." }

theorem C1_amended_surfaced_diagnostics_ranges_witness :
    (c1Relocated.file = some userCodeFilename ∧
      ∃ s l, c1Relocated.start = some s ∧ c1Relocated.length = some l ∧
        s + l ≤ exUserFile.text.length) ∧
    (removeExt "other-lib" ≠ executionHarnessFilename →
      newTypeError exUserFile "[string]" "string | Promise<string>" (some exExport) .resultNode
        c5Diag "other-lib" = .ok ⟨c5Diag, false, none⟩) :=
  C1_amended_surfaced_diagnostics_ranges exUserFile "[string]" "string | Promise<string>"
    (some exExport) .resultNode c5Diag c1Relocated "other-lib"
    (by
      refine ⟨by decide, ?_, ?_⟩
      · intro rs h
        cases h
        decide
      · intro cs h
        cases h
        decide)
    (relocate_return_branch exUserFile "[string]" "string | Promise<string>" exExport exCallSig
      .resultNode c5Diag rfl (Or.inl rfl))
